import Mathlib

/-!
Verification of the inventory status and alert classification engine of the
clinic inventory management system.  The definitions below are a shallow
embedding of the `InventoryData` class (`data.js`): stored calendar dates
(`expiryDate`, `dateAdded`, `lastUpdated`, strings of the form `YYYY-MM-DD`)
are represented by their day number, so that the parsed JavaScript `Date`
value is the instant `day * 86400000` in milliseconds (UTC midnight), and the
reference instant produced by `new Date()` is an arbitrary integer number of
milliseconds.  Presentation-only strings built by the engine (alert `message`
and `icon` fields, `formatDate`) are locale formatting and are omitted from
the embedded value objects; the fields that carry data (`type`, `item`,
`priority`, `date`) are kept.  `localStorage` persistence is external to the
engine and not modelled.
-/

namespace ClinicInventory

/-- Milliseconds per day: the constant `1000 * 60 * 60 * 24` used by the
JavaScript date arithmetic. -/
def msPerDay : Int := 86400000

/-- `Math.ceil (a / b)` for an integer `a` and a positive integer `b`,
expressed through floor division (`Int./` is floor division for a positive
divisor). -/
def ceilDiv (a b : Int) : Int := -((-a) / b)

/-- The instant `new Date(dateString)` for a stored day-granularity date:
UTC midnight of that day. -/
def dateMs (day : Int) : Int := day * msPerDay

/-- An inventory record.  Text fields are lists of characters; `quantity` is
an integer (JavaScript numbers are not constrained to be nonnegative by the
store itself); `lowStockThreshold`, `batchNumber` and `description` are
optional. -/
structure Item where
  id : List Char
  name : List Char
  category : List Char
  quantity : Int
  lowStockThreshold : Option Nat
  expiryDate : Int
  batchNumber : Option (List Char)
  description : Option (List Char)
  dateAdded : Int
  lastUpdated : Int
deriving DecidableEq

/-- The mutable state of `InventoryData`: the record collection together with
the instance configuration set by the constructor
(`lowStockThreshold = 10`, `expiryWarningDays = 30`). -/
structure InventoryState where
  items : List Item
  lowStockThreshold : Nat
  expiryWarningDays : Int
deriving DecidableEq

/-- `isExpired(expiryDate)`: the parsed expiry instant is strictly before the
reference instant `new Date()`. -/
def isExpired (expiryDate now : Int) : Bool :=
  dateMs expiryDate < now

/-- `getDaysUntilExpiry(expiryDate)`:
`Math.ceil((expiry - today) / (1000*60*60*24))`. -/
def getDaysUntilExpiry (expiryDate now : Int) : Int :=
  ceilDiv (dateMs expiryDate - now) msPerDay

/-- `isExpiringSoon(expiryDate, days)`: `diffDays <= days && diffDays > 0`. -/
def isExpiringSoon (expiryDate now days : Int) : Bool :=
  decide (getDaysUntilExpiry expiryDate now ≤ days) &&
    decide (getDaysUntilExpiry expiryDate now > 0)

/-- The threshold actually used for a record:
`item.lowStockThreshold || this.lowStockThreshold` (note that the JavaScript
`||` also replaces a stored threshold of `0` by the instance default, since
`0` is falsy). -/
def effectiveThreshold (s : InventoryState) (it : Item) : Nat :=
  match it.lowStockThreshold with
  | some t => if t = 0 then s.lowStockThreshold else t
  | none => s.lowStockThreshold

/-- The five derived statuses. -/
inductive Status where
  | inStock
  | lowStock
  | outOfStock
  | expiring
  | expired
deriving DecidableEq

/-- `getItemStatus(item)`: the nested-if classification chain. -/
def getItemStatus (s : InventoryState) (it : Item) (now : Int) : Status :=
  if it.quantity = 0 then Status.outOfStock
  else if isExpired it.expiryDate now then Status.expired
  else if isExpiringSoon it.expiryDate now s.expiryWarningDays then Status.expiring
  else if it.quantity ≤ (effectiveThreshold s it : Int) then Status.lowStock
  else Status.inStock

/-- `getLowStockItems()`: quantity within threshold and positive. -/
def getLowStockItems (s : InventoryState) : List Item :=
  s.items.filter fun it =>
    decide (it.quantity ≤ (effectiveThreshold s it : Int)) && decide (it.quantity > 0)

/-- `getExpiringSoonItems()`: expiring soon and not expired. -/
def getExpiringSoonItems (s : InventoryState) (now : Int) : List Item :=
  s.items.filter fun it =>
    isExpiringSoon it.expiryDate now s.expiryWarningDays && !isExpired it.expiryDate now

/-- `getExpiredItems()`. -/
def getExpiredItems (s : InventoryState) (now : Int) : List Item :=
  s.items.filter fun it => isExpired it.expiryDate now

/-- The result record of `getStats()`.  `inStock` is computed by subtraction
and is therefore an integer that can in principle be negative. -/
structure Stats where
  total : Nat
  lowStock : Nat
  expiring : Nat
  expired : Nat
  inStock : Int
  outOfStock : Nat
deriving DecidableEq

/-- `getStats()`: `inStock = total - lowStock - expired`, with `outOfStock`
counted by a separate filter. -/
def getStats (s : InventoryState) (now : Int) : Stats :=
  { total := s.items.length
    lowStock := (getLowStockItems s).length
    expiring := (getExpiringSoonItems s now).length
    expired := (getExpiredItems s now).length
    inStock := (s.items.length : Int) - (getLowStockItems s).length
        - (getExpiredItems s now).length
    outOfStock := (s.items.filter fun it => decide (it.quantity = 0)).length }

/-- `filterByStatus(status)` for the five recognised status strings (the
JavaScript `default` branch, reached only for an unknown status string,
returns the whole collection and is not reachable from the `Status` type). -/
def filterByStatus (s : InventoryState) (status : Status) (now : Int) : List Item :=
  match status with
  | Status.inStock =>
      s.items.filter fun it =>
        decide (it.quantity > (effectiveThreshold s it : Int)) &&
          !isExpiringSoon it.expiryDate now s.expiryWarningDays &&
          !isExpired it.expiryDate now
  | Status.lowStock =>
      s.items.filter fun it =>
        decide (it.quantity ≤ (effectiveThreshold s it : Int)) && decide (it.quantity > 0)
  | Status.outOfStock =>
      s.items.filter fun it => decide (it.quantity = 0)
  | Status.expiring =>
      s.items.filter fun it =>
        isExpiringSoon it.expiryDate now s.expiryWarningDays && !isExpired it.expiryDate now
  | Status.expired =>
      s.items.filter fun it => isExpired it.expiryDate now

/-- Alert kinds generated by `getCriticalAlerts()`. -/
inductive AlertType where
  | outOfStock
  | criticalLow
  | expired
  | expiringSoon
deriving DecidableEq

/-- Alert priorities. -/
inductive AlertPriority where
  | high
  | medium
  | low
deriving DecidableEq

/-- The numeric priority ranking `{ high: 3, medium: 2, low: 1 }` used by the
sort comparator. -/
def priorityOrder : AlertPriority → Int
  | AlertPriority.high => 3
  | AlertPriority.medium => 2
  | AlertPriority.low => 1

/-- An alert value object (the presentation-only `message` and `icon` strings
are omitted). -/
structure Alert where
  type : AlertType
  item : Item
  priority : AlertPriority
deriving DecidableEq

/-- The out-of-stock alert group of `getCriticalAlerts()`. -/
def alertsOutOfStock (s : InventoryState) : List Alert :=
  (s.items.filter fun it => decide (it.quantity = 0)).map fun it =>
    { type := AlertType.outOfStock, item := it, priority := AlertPriority.high }

/-- The critical-low alert group: `0 < quantity <= floor(threshold / 2)`. -/
def alertsCriticalLow (s : InventoryState) : List Alert :=
  (s.items.filter fun it =>
      decide (it.quantity > 0) &&
        decide (it.quantity ≤ ((effectiveThreshold s it / 2 : Nat) : Int))).map fun it =>
    { type := AlertType.criticalLow, item := it, priority := AlertPriority.high }

/-- The expired alert group. -/
def alertsExpired (s : InventoryState) (now : Int) : List Alert :=
  (getExpiredItems s now).map fun it =>
    { type := AlertType.expired, item := it, priority := AlertPriority.high }

/-- The expiring-soon alert group: `0 < daysUntilExpiry <= 7`. -/
def alertsExpiringSoon (s : InventoryState) (now : Int) : List Alert :=
  (s.items.filter fun it =>
      decide (getDaysUntilExpiry it.expiryDate now ≤ 7) &&
        decide (getDaysUntilExpiry it.expiryDate now > 0)).map fun it =>
    { type := AlertType.expiringSoon, item := it, priority := AlertPriority.medium }

/-- The order induced by the comparator
`(a, b) => priorityOrder[b.priority] - priorityOrder[a.priority]`:
`a` may precede `b` exactly when `b`'s priority does not exceed `a`'s. -/
def alertLe (a b : Alert) : Prop :=
  priorityOrder b.priority ≤ priorityOrder a.priority

instance : DecidableRel alertLe := fun a b =>
  inferInstanceAs (Decidable (priorityOrder b.priority ≤ priorityOrder a.priority))

instance : IsTotal Alert alertLe :=
  ⟨fun a b => le_total (priorityOrder b.priority) (priorityOrder a.priority)⟩

instance : IsTrans Alert alertLe :=
  ⟨fun _ _ _ h1 h2 => le_trans h2 h1⟩

/-- `getCriticalAlerts()`: the four groups are generated in the fixed order
out-of-stock, critical-low, expired, expiring-soon, and the concatenation is
then sorted with the stable `Array.prototype.sort` under the priority
comparator; `List.insertionSort` is that stable sort. -/
def getCriticalAlerts (s : InventoryState) (now : Int) : List Alert :=
  List.insertionSort alertLe
    (alertsOutOfStock s ++ alertsCriticalLow s ++ alertsExpired s now ++
      alertsExpiringSoon s now)

/-- An activity feed entry (`type`, `message` and `icon` are constant or
presentation-only; the record and its `lastUpdated` date are kept). -/
structure ActivityEntry where
  item : Item
  date : Int
deriving DecidableEq

/-- The order induced by the comparator
`(a, b) => new Date(b.lastUpdated) - new Date(a.lastUpdated)`. -/
def recentLe (a b : Item) : Prop :=
  b.lastUpdated ≤ a.lastUpdated

instance : DecidableRel recentLe := fun a b =>
  inferInstanceAs (Decidable (b.lastUpdated ≤ a.lastUpdated))

instance : IsTotal Item recentLe :=
  ⟨fun a b => le_total b.lastUpdated a.lastUpdated⟩

instance : IsTrans Item recentLe :=
  ⟨fun _ _ _ h1 h2 => le_trans h2 h1⟩

/-- `getRecentActivity()`: stable sort by `lastUpdated` descending,
`slice(0, 10)`, then mapping each record to an activity entry. -/
def getRecentActivity (s : InventoryState) : List ActivityEntry :=
  ((List.insertionSort recentLe s.items).take 10).map fun it =>
    { item := it, date := it.lastUpdated }

/-- `getItemById(id)`: first record with the given id. -/
def getItemById (s : InventoryState) (i : List Char) : Option Item :=
  s.items.find? fun it => decide (it.id = i)

/-- A partial update object passed to `updateItem`.  The JavaScript spread
`{...item, ...updates}` accepts any subset of the record's fields, including
`id` and `dateAdded`; a field set to `some v` is present in the update
object. -/
structure ItemUpdates where
  id : Option (List Char) := none
  name : Option (List Char) := none
  category : Option (List Char) := none
  quantity : Option Int := none
  lowStockThreshold : Option (Option Nat) := none
  expiryDate : Option Int := none
  batchNumber : Option (Option (List Char)) := none
  description : Option (Option (List Char)) := none
  dateAdded : Option Int := none
deriving DecidableEq

/-- `{ ...item, ...updates, lastUpdated: today }`: fields present in the
update object replace the record's fields, and `lastUpdated` is always set to
the current date. -/
def applyUpdates (it : Item) (u : ItemUpdates) (today : Int) : Item :=
  { id := u.id.getD it.id
    name := u.name.getD it.name
    category := u.category.getD it.category
    quantity := u.quantity.getD it.quantity
    lowStockThreshold := u.lowStockThreshold.getD it.lowStockThreshold
    expiryDate := u.expiryDate.getD it.expiryDate
    batchNumber := u.batchNumber.getD it.batchNumber
    description := u.description.getD it.description
    dateAdded := u.dateAdded.getD it.dateAdded
    lastUpdated := today }

/-- The `findIndex` / assignment core of `updateItem`: replace the first
record with the given id, returning the updated record (or `none`). -/
def updateItemsList (i : List Char) (u : ItemUpdates) (today : Int) :
    List Item → Option Item × List Item
  | [] => (none, [])
  | it :: rest =>
    if it.id = i then
      (some (applyUpdates it u today), applyUpdates it u today :: rest)
    else
      ((updateItemsList i u today rest).1, it :: (updateItemsList i u today rest).2)

/-- `updateItem(id, updates)`. -/
def updateItem (s : InventoryState) (i : List Char) (u : ItemUpdates) (today : Int) :
    Option Item × InventoryState :=
  ((updateItemsList i u today s.items).1,
    { s with items := (updateItemsList i u today s.items).2 })

/-- `updateQuantity(id, newQuantity)`:
`updateItem(id, { quantity: Math.max(0, newQuantity) })`. -/
def updateQuantity (s : InventoryState) (i : List Char) (newQuantity today : Int) :
    Option Item × InventoryState :=
  updateItem s i { quantity := some (max 0 newQuantity) } today

/-- `increaseQuantity(id, amount)`. -/
def increaseQuantity (s : InventoryState) (i : List Char) (amount today : Int) :
    Option Item × InventoryState :=
  match getItemById s i with
  | some it => updateQuantity s i (it.quantity + amount) today
  | none => (none, s)

/-- `decreaseQuantity(id, amount)`. -/
def decreaseQuantity (s : InventoryState) (i : List Char) (amount today : Int) :
    Option Item × InventoryState :=
  match getItemById s i with
  | some it => updateQuantity s i (it.quantity - amount) today
  | none => (none, s)

/-- The creation payload of `addItem`.  The spread
`{...itemData, id: ..., dateAdded: ..., lastUpdated: ...}` puts the generated
fields after the payload, so any `id`, `dateAdded` or `lastUpdated` carried by
the payload is overridden. -/
structure NewItemData where
  name : List Char
  category : List Char
  quantity : Int
  lowStockThreshold : Option Nat := none
  expiryDate : Int
  batchNumber : Option (List Char) := none
  description : Option (List Char) := none
  id : Option (List Char) := none
  dateAdded : Option Int := none
  lastUpdated : Option Int := none
deriving DecidableEq

/-- `addItem(itemData)`; the generated id (`generateId()` uses the clock and a
random suffix) is passed in explicitly. -/
def addItem (s : InventoryState) (d : NewItemData) (newId : List Char) (today : Int) :
    Item × InventoryState :=
  let newItem : Item :=
    { id := newId
      name := d.name
      category := d.category
      quantity := d.quantity
      lowStockThreshold := d.lowStockThreshold
      expiryDate := d.expiryDate
      batchNumber := d.batchNumber
      description := d.description
      dateAdded := today
      lastUpdated := today }
  (newItem, { s with items := s.items ++ [newItem] })

/-- `toLowerCase()`. -/
def lowercase (cs : List Char) : List Char :=
  cs.map Char.toLower

/-- Whether the first list is an initial segment of the second. -/
def startsWithList : List Char → List Char → Bool
  | [], _ => true
  | _ :: _, [] => false
  | a :: as, b :: bs => a == b && startsWithList as bs

/-- `hay.includes(needle)` on strings (an empty needle always matches). -/
def containsSub : List Char → List Char → Bool
  | [], needle => startsWithList needle []
  | hay@(_ :: t), needle => startsWithList needle hay || containsSub t needle

/-- One evaluation of the `searchItems` filter callback, with `term` already
lowercased.  The callback short-circuits on `name` and `category`; it then
reads `item.batchNumber.toLowerCase()` without a guard, so a record with no
`batchNumber` throws a `TypeError`, modelled as `none`; `description` is
guarded by `item.description && ...`. -/
def matchesItem (term : List Char) (it : Item) : Option Bool :=
  if containsSub (lowercase it.name) term then some true
  else if containsSub (lowercase it.category) term then some true
  else
    match it.batchNumber with
    | none => none
    | some b =>
      if containsSub (lowercase b) term then some true
      else
        match it.description with
        | none => some false
        | some d => some (containsSub (lowercase d) term)

/-- The `filter` traversal of `searchItems`: the first record whose callback
throws aborts the whole call. -/
def searchGo (term : List Char) : List Item → Option (List Item)
  | [] => some []
  | it :: rest =>
    match matchesItem term it with
    | none => none
    | some b =>
      match searchGo term rest with
      | none => none
      | some r => some (if b then it :: r else r)

/-- `searchItems(query)`. -/
def searchItems (s : InventoryState) (query : List Char) : Option (List Item) :=
  searchGo (lowercase query) s.items

/-- Modelled from the spec: the match relation described by §4.2 — a
case-insensitive substring match against an optional field, with a missing
field non-matching. -/
def fieldMatch (term : List Char) : Option (List Char) → Bool
  | none => false
  | some f => containsSub (lowercase f) term

/-- Modelled from the spec: a record matches a query if any of `name`,
`category`, `batchNumber`, `description` matches, missing optional fields
non-matching. -/
def specMatches (term : List Char) (it : Item) : Bool :=
  containsSub (lowercase it.name) term || containsSub (lowercase it.category) term ||
    fieldMatch term it.batchNumber || fieldMatch term it.description

/-! ## Helper lemmas -/

/-- Splitting the reference instant into its day and its time of day:
`getDaysUntilExpiry` is the exact day difference, whatever the time of day. -/
theorem getDaysUntilExpiry_split (e d t : Int) (h0 : 0 ≤ t) (h1 : t < msPerDay) :
    getDaysUntilExpiry e (dateMs d + t) = e - d := by
  unfold getDaysUntilExpiry ceilDiv
  have h2 : -(dateMs e - (dateMs d + t)) = t + msPerDay * (d - e) := by
    unfold dateMs; ring
  rw [h2, Int.add_mul_ediv_left t (d - e) (by unfold msPerDay; norm_num),
    Int.ediv_eq_zero_of_lt h0 h1]
  ring

theorem getItemStatus_eq_outOfStock (s : InventoryState) (it : Item) (now : Int) :
    getItemStatus s it now = Status.outOfStock ↔ it.quantity = 0 := by
  unfold getItemStatus
  split_ifs <;> simp_all

theorem getItemStatus_eq_expired (s : InventoryState) (it : Item) (now : Int) :
    getItemStatus s it now = Status.expired ↔
      it.quantity ≠ 0 ∧ isExpired it.expiryDate now = true := by
  unfold getItemStatus
  split_ifs <;> simp_all

theorem getItemStatus_eq_expiring (s : InventoryState) (it : Item) (now : Int) :
    getItemStatus s it now = Status.expiring ↔
      it.quantity ≠ 0 ∧ isExpired it.expiryDate now = false ∧
        isExpiringSoon it.expiryDate now s.expiryWarningDays = true := by
  unfold getItemStatus
  split_ifs <;> simp_all

theorem getItemStatus_eq_lowStock (s : InventoryState) (it : Item) (now : Int) :
    getItemStatus s it now = Status.lowStock ↔
      it.quantity ≠ 0 ∧ isExpired it.expiryDate now = false ∧
        isExpiringSoon it.expiryDate now s.expiryWarningDays = false ∧
        it.quantity ≤ (effectiveThreshold s it : Int) := by
  unfold getItemStatus
  split_ifs <;> simp_all

theorem getItemStatus_eq_inStock (s : InventoryState) (it : Item) (now : Int) :
    getItemStatus s it now = Status.inStock ↔
      it.quantity ≠ 0 ∧ isExpired it.expiryDate now = false ∧
        isExpiringSoon it.expiryDate now s.expiryWarningDays = false ∧
        (effectiveThreshold s it : Int) < it.quantity := by
  unfold getItemStatus
  split_ifs <;> simp_all

/-! ## C1 -/

/-- C1: `getItemStatus` returns one of the five statuses, and the
classification follows the fixed precedence order: quantity zero gives
out-of-stock (even for an expired record), otherwise expired, otherwise
expiring, otherwise within-threshold gives low-stock, otherwise in-stock. -/
theorem C1_classifyStatus_precedence (s : InventoryState) (it : Item) (now : Int) :
    getItemStatus s it now ∈
        [Status.outOfStock, Status.expired, Status.expiring, Status.lowStock,
          Status.inStock] ∧
      (getItemStatus s it now = Status.outOfStock ↔ it.quantity = 0) ∧
      (getItemStatus s it now = Status.expired ↔
        it.quantity ≠ 0 ∧ isExpired it.expiryDate now = true) ∧
      (getItemStatus s it now = Status.expiring ↔
        it.quantity ≠ 0 ∧ isExpired it.expiryDate now = false ∧
          isExpiringSoon it.expiryDate now s.expiryWarningDays = true) ∧
      (getItemStatus s it now = Status.lowStock ↔
        it.quantity ≠ 0 ∧ isExpired it.expiryDate now = false ∧
          isExpiringSoon it.expiryDate now s.expiryWarningDays = false ∧
          it.quantity ≤ (effectiveThreshold s it : Int)) ∧
      (getItemStatus s it now = Status.inStock ↔
        it.quantity ≠ 0 ∧ isExpired it.expiryDate now = false ∧
          isExpiringSoon it.expiryDate now s.expiryWarningDays = false ∧
          (effectiveThreshold s it : Int) < it.quantity) := by
  refine ⟨?_, getItemStatus_eq_outOfStock s it now, getItemStatus_eq_expired s it now,
    getItemStatus_eq_expiring s it now, getItemStatus_eq_lowStock s it now,
    getItemStatus_eq_inStock s it now⟩
  unfold getItemStatus
  split_ifs <;> simp

/-! ## C3 -/

/-- C3: `getDaysUntilExpiry` computes the ceiling of the distance from the
reference instant to the parsed expiry date in whole days, which equals the
calendar-day difference between the expiry day and the reference day for
every time of day `t` of the reference instant — the value does not vary
with the time of day — and the value is negative exactly when the expiry day
has passed. -/
theorem C3_daysUntilExpiry_calendar (e d t : Int) (h0 : 0 ≤ t) (h1 : t < msPerDay) :
    getDaysUntilExpiry e (dateMs d + t) = e - d ∧
      (getDaysUntilExpiry e (dateMs d + t) < 0 ↔ e < d) := by
  have h := getDaysUntilExpiry_split e d t h0 h1
  exact ⟨h, by rw [h]; omega⟩

/-- Witness for C3 at a concrete reference instant (noon of day 100, expiry
day 103). -/
theorem C3_daysUntilExpiry_calendar_witness :
    getDaysUntilExpiry 103 (dateMs 100 + 43200000) = 103 - 100 :=
  (C3_daysUntilExpiry_calendar 103 100 43200000 (by decide) (by decide)).1

/-! ## C8 -/

/-- C8 (amended): a zero `getDaysUntilExpiry` always makes `isExpiringSoon`
false; a record whose expiry date equals the reference day is `expired`
whenever the reference instant lies strictly after the start of its day, and
is never `expiring`; at the exact midnight instant the same-day record is not
expired either. -/
theorem C8_day_zero_boundary (e now w d t : Int) :
    (getDaysUntilExpiry e now = 0 → isExpiringSoon e now w = false) ∧
      (0 < t → isExpired d (dateMs d + t) = true) ∧
      (0 ≤ t → t < msPerDay → isExpiringSoon d (dateMs d + t) w = false) ∧
      isExpired d (dateMs d) = false := by
  refine ⟨?_, ?_, ?_, ?_⟩
  · intro h
    unfold isExpiringSoon
    rw [h]
    simp
  · intro ht
    simp only [isExpired, decide_eq_true_eq]
    omega
  · intro h0 h1
    unfold isExpiringSoon
    rw [getDaysUntilExpiry_split d d t h0 h1]
    simp
  · simp [isExpired]

/-- Witness for C8 at concrete instants inside and at the start of a day. -/
theorem C8_day_zero_boundary_witness :
    isExpiringSoon 200 (dateMs 200 + 5) 30 = false ∧
      isExpired 100 (dateMs 100 + 1) = true ∧
      isExpiringSoon 100 (dateMs 100 + 1) 30 = false :=
  ⟨(C8_day_zero_boundary 200 (dateMs 200 + 5) 30 0 0).1 (by decide),
    (C8_day_zero_boundary 0 0 30 100 1).2.1 (by decide),
    (C8_day_zero_boundary 0 0 30 100 1).2.2.1 (by decide) (by decide)⟩

def exItem8 : Item :=
  { id := ['1'], name := ['a'], category := ['m'], quantity := 5,
    lowStockThreshold := none, expiryDate := 100, batchNumber := none,
    description := none, dateAdded := 0, lastUpdated := 0 }

def exState8 : InventoryState :=
  { items := [exItem8], lowStockThreshold := 10, expiryWarningDays := 30 }

/-- C8 counterexample: at the exact midnight instant of the reference day, a
record whose expiry date is exactly that day is not classified as expired —
the strict instant comparison of `isExpired` fails — and it is not expiring
either, so it falls through to the quantity-based statuses. -/
theorem C8_counterexample :
    isExpired 100 (dateMs 100) = false ∧
      isExpiringSoon 100 (dateMs 100) 30 = false ∧
      getItemStatus exState8 exItem8 (dateMs 100) = Status.lowStock := by
  decide

/-! ## C2 -/

/-- Two filters whose conditions exclude each other select at most the whole
list between them. -/
theorem filter_length_add_le (l : List Item) (p q : Item → Bool)
    (h : ∀ x, p x = true → q x = false) :
    (l.filter p).length + (l.filter q).length ≤ l.length := by
  induction l with
  | nil => simp
  | cons x t ih =>
    rw [List.filter_cons, List.filter_cons]
    by_cases hp : p x = true
    · have hq : q x = false := h x hp
      rw [if_pos hp, if_neg (by simp [hq])]
      simp only [List.length_cons]
      omega
    · rw [if_neg hp]
      by_cases hq2 : q x = true
      · rw [if_pos hq2]
        simp only [List.length_cons]
        omega
      · rw [if_neg hq2]
        simp only [List.length_cons]
        omega

/-- C2 (amended): in `getStats` the counts satisfy
`inStock + lowStock + expired = total` — `inStock` is computed by that very
subtraction, so records with quantity 0 that are neither low-stock nor
expired are absorbed into `inStock` — while `outOfStock` is a separate,
overlapping count; the `expiring` count never includes a record counted as
`expired`, so `expiring + expired ≤ total`. -/
theorem C2_stats_sums (s : InventoryState) (now : Int) :
    (getStats s now).inStock + (getStats s now).lowStock + (getStats s now).expired
        = ((getStats s now).total : Int) ∧
      (getStats s now).expiring + (getStats s now).expired ≤ (getStats s now).total := by
  constructor
  · simp only [getStats]
    ring
  · simp only [getStats, getExpiringSoonItems, getExpiredItems]
    apply filter_length_add_le
    intro x hx
    rw [Bool.and_eq_true] at hx
    simpa using hx.2

def exItem2 : Item :=
  { id := ['1'], name := ['a'], category := ['m'], quantity := 0,
    lowStockThreshold := none, expiryDate := 500, batchNumber := none,
    description := none, dateAdded := 0, lastUpdated := 0 }

def exState2 : InventoryState :=
  { items := [exItem2], lowStockThreshold := 10, expiryWarningDays := 30 }

/-- C2 counterexample: a single out-of-stock record (quantity 0, far-future
expiry) is counted both in `inStock` (which only subtracts `lowStock` and
`expired`) and in `outOfStock`, so
`inStock + lowStock + expired + outOfStock = 2 ≠ 1 = total`. -/
theorem C2_counterexample :
    ¬((getStats exState2 (dateMs 100 + 1)).inStock
        + (getStats exState2 (dateMs 100 + 1)).lowStock
        + (getStats exState2 (dateMs 100 + 1)).expired
        + (getStats exState2 (dateMs 100 + 1)).outOfStock
      = ((getStats exState2 (dateMs 100 + 1)).total : Int)) := by
  decide

/-! ## C5 -/

/-- The nonnegativity invariant of the record collection. -/
def itemsNonneg (l : List Item) : Prop := ∀ it ∈ l, 0 ≤ it.quantity

instance : DecidablePred itemsNonneg := fun l =>
  inferInstanceAs (Decidable (∀ it ∈ l, 0 ≤ it.quantity))

/-- `updateItemsList` preserves nonnegativity when the update's quantity, if
present, is nonnegative. -/
theorem updateItemsList_nonneg (i : List Char) (u : ItemUpdates) (today : Int)
    (hq : ∀ q, u.quantity = some q → 0 ≤ q) :
    ∀ l : List Item, itemsNonneg l → itemsNonneg (updateItemsList i u today l).2 := by
  intro l
  induction l with
  | nil => intro h; simpa [updateItemsList] using h
  | cons it rest ih =>
    intro h
    unfold updateItemsList
    by_cases hid : it.id = i
    · rw [if_pos hid]
      intro x hx
      rcases List.mem_cons.mp hx with hx1 | hx2
      · subst hx1
        show 0 ≤ (applyUpdates it u today).quantity
        unfold applyUpdates
        cases hu : u.quantity with
        | none => simpa using h it (by simp)
        | some q => simpa using hq q hu
      · exact h x (by simp [hx2])
    · rw [if_neg hid]
      intro x hx
      rcases List.mem_cons.mp hx with hx1 | hx2
      · subst hx1
        exact h x (by simp)
      · exact ih (fun y hy => h y (by simp [hy])) x hx2

/-- C5 (amended): starting from a nonnegative collection, `updateQuantity`,
`decreaseQuantity` and `increaseQuantity` always leave every quantity
nonnegative (they clamp through `Math.max(0, ·)`), while `updateItem` and
`addItem` apply the payload quantity verbatim and therefore preserve
nonnegativity exactly when the supplied quantity, if any, is itself
nonnegative. -/
theorem C5_quantity_clamped (s : InventoryState) (today : Int)
    (h : itemsNonneg s.items) :
    (∀ i q, itemsNonneg (updateQuantity s i q today).2.items) ∧
      (∀ i amount, itemsNonneg (decreaseQuantity s i amount today).2.items) ∧
      (∀ i amount, itemsNonneg (increaseQuantity s i amount today).2.items) ∧
      (∀ i u, (∀ q, u.quantity = some q → 0 ≤ q) →
        itemsNonneg (updateItem s i u today).2.items) ∧
      (∀ d newId, 0 ≤ d.quantity →
        itemsNonneg (addItem s d newId today).2.items) := by
  have hupd : ∀ i u, (∀ q, u.quantity = some q → 0 ≤ q) →
      itemsNonneg (updateItem s i u today).2.items := by
    intro i u hu
    exact updateItemsList_nonneg i u today hu s.items h
  have hq : ∀ i q, itemsNonneg (updateQuantity s i q today).2.items := by
    intro i q
    apply hupd
    intro q' hq'
    simp only [Option.some.injEq] at hq'
    rw [← hq']
    exact le_max_left 0 q
  refine ⟨hq, ?_, ?_, hupd, ?_⟩
  · intro i amount
    unfold decreaseQuantity
    cases getItemById s i with
    | none => exact h
    | some it => exact hq i (it.quantity - amount)
  · intro i amount
    unfold increaseQuantity
    cases getItemById s i with
    | none => exact h
    | some it => exact hq i (it.quantity + amount)
  · intro d newId hd
    intro x hx
    rcases List.mem_append.mp hx with hx1 | hx2
    · exact h x hx1
    · rcases List.mem_singleton.mp hx2 with rfl
      exact hd

def exItem5 : Item :=
  { id := ['1'], name := ['a'], category := ['m'], quantity := 5,
    lowStockThreshold := none, expiryDate := 500, batchNumber := none,
    description := none, dateAdded := 0, lastUpdated := 0 }

def exState5 : InventoryState :=
  { items := [exItem5], lowStockThreshold := 10, expiryWarningDays := 30 }

/-- Witness for C5: decreasing a quantity of 5 by 99 clamps to 0 and keeps
the collection nonnegative. -/
theorem C5_quantity_clamped_witness :
    itemsNonneg (decreaseQuantity exState5 ['1'] 99 0).2.items :=
  (C5_quantity_clamped exState5 0 (by decide)).2.1 ['1'] 99

/-- The update payload `{ quantity: -1 }`. -/
def negUpdate : ItemUpdates := { quantity := some (-1) }

/-- C5 counterexample: `updateItem` does not clamp — the payload
`{ quantity: -1 }` drives the stored quantity below zero. -/
theorem C5_counterexample :
    ¬ itemsNonneg (updateItem exState5 ['1'] negUpdate 0).2.items ∧
      (updateItem exState5 ['1'] negUpdate 0).2.items.map Item.quantity = [-1] := by
  decide

/-! ## C10 -/

/-- `updateItemsList` preserves any projection that `applyUpdates` leaves
unchanged. -/
theorem updateItemsList_map_eq {β : Type} (g : Item → β) (i : List Char)
    (u : ItemUpdates) (today : Int)
    (hg : ∀ it : Item, g (applyUpdates it u today) = g it) :
    ∀ l : List Item, (updateItemsList i u today l).2.map g = l.map g := by
  intro l
  induction l with
  | nil => simp [updateItemsList]
  | cons it rest ih =>
    unfold updateItemsList
    by_cases hid : it.id = i
    · rw [if_pos hid]
      simp [hg]
    · rw [if_neg hid]
      simp [ih]

/-- C10 (amended): `updateItem` leaves `id` and `dateAdded` (and every other
field the payload does not supply) unchanged across the whole collection
whenever the payload does not itself carry that field — the spread offers no
protection, so a payload supplying `id` or `dateAdded` does overwrite them —
and `addItem` assigns the generated `id` and today's `dateAdded` exactly once
at creation, overriding any such field carried by the creation payload. -/
theorem C10_immutable_fields (s : InventoryState) (i : List Char)
    (u : ItemUpdates) (today : Int) :
    (u.id = none →
      (updateItem s i u today).2.items.map Item.id = s.items.map Item.id) ∧
      (u.dateAdded = none →
        (updateItem s i u today).2.items.map Item.dateAdded
          = s.items.map Item.dateAdded) ∧
      (u.name = none →
        (updateItem s i u today).2.items.map Item.name = s.items.map Item.name) ∧
      (u.category = none →
        (updateItem s i u today).2.items.map Item.category
          = s.items.map Item.category) ∧
      (u.quantity = none →
        (updateItem s i u today).2.items.map Item.quantity
          = s.items.map Item.quantity) ∧
      (u.lowStockThreshold = none →
        (updateItem s i u today).2.items.map Item.lowStockThreshold
          = s.items.map Item.lowStockThreshold) ∧
      (u.expiryDate = none →
        (updateItem s i u today).2.items.map Item.expiryDate
          = s.items.map Item.expiryDate) ∧
      (u.batchNumber = none →
        (updateItem s i u today).2.items.map Item.batchNumber
          = s.items.map Item.batchNumber) ∧
      (u.description = none →
        (updateItem s i u today).2.items.map Item.description
          = s.items.map Item.description) ∧
      (∀ (d : NewItemData) (newId : List Char),
        (addItem s d newId today).1.id = newId ∧
          (addItem s d newId today).1.dateAdded = today ∧
          (addItem s d newId today).2.items
            = s.items ++ [(addItem s d newId today).1]) := by
  refine ⟨?_, ?_, ?_, ?_, ?_, ?_, ?_, ?_, ?_, ?_⟩ <;>
    first
      | (intro hnone
         exact updateItemsList_map_eq _ i u today
           (fun it => by simp [applyUpdates, hnone]) s.items)
      | (intro d newId
         exact ⟨rfl, rfl, rfl⟩)

def exItem10 : Item :=
  { id := ['a'], name := ['n'], category := ['m'], quantity := 5,
    lowStockThreshold := none, expiryDate := 500, batchNumber := none,
    description := none, dateAdded := 3, lastUpdated := 3 }

def exState10 : InventoryState :=
  { items := [exItem10], lowStockThreshold := 10, expiryWarningDays := 30 }

/-- The update payload `{ name: "z" }`. -/
def renameUpdate : ItemUpdates := { name := some ['z'] }

/-- Witness for C10: a rename payload leaves ids and creation dates of the
collection unchanged. -/
theorem C10_immutable_fields_witness :
    (updateItem exState10 ['a'] renameUpdate 7).2.items.map Item.id
        = exState10.items.map Item.id ∧
      (updateItem exState10 ['a'] renameUpdate 7).2.items.map Item.dateAdded
        = exState10.items.map Item.dateAdded :=
  ⟨(C10_immutable_fields exState10 ['a'] renameUpdate 7).1 rfl,
    (C10_immutable_fields exState10 ['a'] renameUpdate 7).2.1 rfl⟩

/-- The update payload `{ id: "b" }`. -/
def idUpdate : ItemUpdates := { id := some ['b'] }

/-- C10 counterexample: a payload that carries an `id` field overwrites the
supposedly immutable id through the spread `{...item, ...updates}`. -/
theorem C10_counterexample :
    exState10.items.map Item.id = [['a']] ∧
      (updateItem exState10 ['a'] idUpdate 0).2.items.map Item.id = [['b']] := by
  decide

/-! ## C6 -/

/-- C6 (amended): the `in-stock` and `out-of-stock` branches of
`filterByStatus` select exactly the records whose computed status is that
status; the `expiring` branch selects the expiring-and-not-expired records
independently of the precedence chain; but the `low-stock` branch selects
every record with positive quantity within threshold regardless of expiry
(so it can include records whose computed status is `expired` or
`expiring`), and the `expired` branch selects every expired record
regardless of quantity (so it can include records whose computed status is
`out-of-stock`). -/
theorem C6_filterByStatus_buckets (s : InventoryState) (now : Int) :
    filterByStatus s Status.inStock now
        = s.items.filter (fun it => decide (getItemStatus s it now = Status.inStock)) ∧
      filterByStatus s Status.outOfStock now
        = s.items.filter
            (fun it => decide (getItemStatus s it now = Status.outOfStock)) ∧
      filterByStatus s Status.expiring now = getExpiringSoonItems s now ∧
      filterByStatus s Status.lowStock now
        = s.items.filter
            (fun it =>
              decide (0 < it.quantity ∧ it.quantity ≤ (effectiveThreshold s it : Int))) ∧
      filterByStatus s Status.expired now = getExpiredItems s now := by
  refine ⟨?_, ?_, rfl, ?_, rfl⟩
  · apply List.filter_congr
    intro it _
    rw [Bool.eq_iff_iff]
    simp only [Bool.and_eq_true, decide_eq_true_eq, Bool.not_eq_true']
    rw [getItemStatus_eq_inStock]
    constructor
    · rintro ⟨⟨hq, hES⟩, hE⟩
      have hth : (0 : Int) ≤ (effectiveThreshold s it : Int) := Int.natCast_nonneg _
      exact ⟨by omega, hE, hES, hq⟩
    · rintro ⟨hq0, hE, hES, hq⟩
      exact ⟨⟨hq, hES⟩, hE⟩
  · apply List.filter_congr
    intro it _
    exact decide_eq_decide.mpr (getItemStatus_eq_outOfStock s it now).symm
  · apply List.filter_congr
    intro it _
    rw [Bool.eq_iff_iff]
    simp only [Bool.and_eq_true, decide_eq_true_eq]
    constructor
    · rintro ⟨h1, h2⟩
      exact ⟨h2, h1⟩
    · rintro ⟨h1, h2⟩
      exact ⟨h2, h1⟩

def exItem6 : Item :=
  { id := ['1'], name := ['a'], category := ['m'], quantity := 3,
    lowStockThreshold := none, expiryDate := 50, batchNumber := none,
    description := none, dateAdded := 0, lastUpdated := 0 }

def exState6 : InventoryState :=
  { items := [exItem6], lowStockThreshold := 10, expiryWarningDays := 30 }

/-- C6 counterexample: an expired record with positive quantity within
threshold is returned by the `low-stock` filter although its computed status
is `expired`, so the filter is not the set of records whose status equals
`low-stock`. -/
theorem C6_counterexample :
    filterByStatus exState6 Status.lowStock (dateMs 100 + 1) = [exItem6] ∧
      getItemStatus exState6 exItem6 (dateMs 100 + 1) = Status.expired ∧
      exState6.items.filter
          (fun it => decide (getItemStatus exState6 it (dateMs 100 + 1) = Status.lowStock))
        = [] := by
  decide

/-! ## C7 -/

/-- When `batchNumber` is present the search callback returns exactly the
spec's any-field match. -/
theorem matchesItem_of_batch (term : List Char) (it : Item)
    (h : it.batchNumber ≠ none) :
    matchesItem term it = some (specMatches term it) := by
  unfold matchesItem specMatches fieldMatch
  cases hb : it.batchNumber with
  | none => exact absurd hb h
  | some b =>
    by_cases h1 : containsSub (lowercase it.name) term = true
    · simp [h1]
    · rw [Bool.not_eq_true] at h1
      by_cases h2 : containsSub (lowercase it.category) term = true
      · simp [h1, h2]
      · rw [Bool.not_eq_true] at h2
        by_cases h3 : containsSub (lowercase b) term = true
        · simp [h1, h2, h3]
        · rw [Bool.not_eq_true] at h3
          cases hd : it.description with
          | none => simp [h1, h2, h3]
          | some d => simp [h1, h2, h3]

/-- The search traversal succeeds and filters by the spec's match whenever
every record carries a `batchNumber`. -/
theorem searchGo_eq_filter (term : List Char) :
    ∀ l : List Item, (∀ it ∈ l, it.batchNumber ≠ none) →
      searchGo term l = some (l.filter (specMatches term)) := by
  intro l
  induction l with
  | nil => intro _; simp [searchGo]
  | cons it rest ih =>
    intro h
    unfold searchGo
    rw [matchesItem_of_batch term it (h it (by simp)),
      ih (fun y hy => h y (by simp [hy])), List.filter_cons]

/-- C7 (amended): `searchItems` is a case-insensitive any-field substring
match that treats a missing `description` as non-matching, and it is total
on every collection whose records all carry a `batchNumber`; a record
without a `batchNumber` (optional per the data model) makes the call fail
with a `TypeError` unless the record already matched on name or category. -/
theorem C7_search_matches (s : InventoryState) (query : List Char)
    (h : ∀ it ∈ s.items, it.batchNumber ≠ none) :
    searchItems s query = some (s.items.filter (specMatches (lowercase query))) :=
  searchGo_eq_filter (lowercase query) s.items h

def exItem7w : Item :=
  { id := ['1'], name := ['P', 'a', 'r', 'a'], category := ['M', 'e', 'd'],
    quantity := 5, lowStockThreshold := none, expiryDate := 500,
    batchNumber := some ['B', '1'], description := none, dateAdded := 0,
    lastUpdated := 0 }

def exState7w : InventoryState :=
  { items := [exItem7w], lowStockThreshold := 10, expiryWarningDays := 30 }

/-- Witness for C7: an uppercase query matches a record case-insensitively
by name, with a missing description not causing any failure. -/
theorem C7_search_matches_witness :
    searchItems exState7w ['A'] = some [exItem7w] :=
  (C7_search_matches exState7w ['A'] (by decide)).trans (by decide)

def exItem7 : Item :=
  { id := ['1'], name := ['a', 'b'], category := ['m'], quantity := 5,
    lowStockThreshold := none, expiryDate := 500, batchNumber := none,
    description := none, dateAdded := 0, lastUpdated := 0 }

def exState7 : InventoryState :=
  { items := [exItem7], lowStockThreshold := 10, expiryWarningDays := 30 }

/-- C7 counterexample: a record with no `batchNumber` — a well-formed record,
the field being optional — makes `searchItems` fail (the callback reads
`item.batchNumber.toLowerCase()` unguarded) instead of treating the missing
field as non-matching. -/
theorem C7_counterexample :
    exItem7.batchNumber = none ∧ searchItems exState7 ['z'] = none := by
  decide

/-! ## C4 -/

theorem priority_of_mem_out {s : InventoryState} {a : Alert}
    (h : a ∈ alertsOutOfStock s) : a.priority = AlertPriority.high := by
  simp only [alertsOutOfStock, List.mem_map] at h
  obtain ⟨it, _, rfl⟩ := h
  rfl

theorem priority_of_mem_criticalLow {s : InventoryState} {a : Alert}
    (h : a ∈ alertsCriticalLow s) : a.priority = AlertPriority.high := by
  simp only [alertsCriticalLow, List.mem_map] at h
  obtain ⟨it, _, rfl⟩ := h
  rfl

theorem priority_of_mem_expired {s : InventoryState} {now : Int} {a : Alert}
    (h : a ∈ alertsExpired s now) : a.priority = AlertPriority.high := by
  simp only [alertsExpired, List.mem_map] at h
  obtain ⟨it, _, rfl⟩ := h
  rfl

theorem priority_of_mem_expiringSoon {s : InventoryState} {now : Int} {a : Alert}
    (h : a ∈ alertsExpiringSoon s now) : a.priority = AlertPriority.medium := by
  simp only [alertsExpiringSoon, List.mem_map] at h
  obtain ⟨it, _, rfl⟩ := h
  rfl

theorem pairwise_alertLe_of_const (l : List Alert) (p : AlertPriority)
    (h : ∀ x ∈ l, x.priority = p) : List.Pairwise alertLe l := by
  induction l with
  | nil => exact List.Pairwise.nil
  | cons x t ih =>
    constructor
    · intro y hy
      unfold alertLe
      rw [h x (by simp), h y (by simp [hy])]
    · exact ih (fun z hz => h z (by simp [hz]))

theorem alertLe_of_high {a b : Alert} (ha : a.priority = AlertPriority.high) :
    alertLe a b := by
  unfold alertLe
  rw [ha]
  cases b.priority <;> decide

/-- The alert list, in its generation order, is already sorted for the
priority comparator: three `high` groups followed by a `medium` group. -/
theorem alerts_generation_sorted (s : InventoryState) (now : Int) :
    List.Pairwise alertLe
      (alertsOutOfStock s ++ alertsCriticalLow s ++ alertsExpired s now ++
        alertsExpiringSoon s now) := by
  refine List.pairwise_append.2 ⟨?_, ?_, ?_⟩
  · refine List.pairwise_append.2 ⟨?_, ?_, ?_⟩
    · refine List.pairwise_append.2 ⟨?_, ?_, ?_⟩
      · exact pairwise_alertLe_of_const _ AlertPriority.high
          (fun x hx => priority_of_mem_out hx)
      · exact pairwise_alertLe_of_const _ AlertPriority.high
          (fun x hx => priority_of_mem_criticalLow hx)
      · intro a ha b _
        exact alertLe_of_high (priority_of_mem_out ha)
    · exact pairwise_alertLe_of_const _ AlertPriority.high
        (fun x hx => priority_of_mem_expired hx)
    · intro a ha b _
      rcases List.mem_append.mp ha with h1 | h1
      · exact alertLe_of_high (priority_of_mem_out h1)
      · exact alertLe_of_high (priority_of_mem_criticalLow h1)
  · exact pairwise_alertLe_of_const _ AlertPriority.medium
      (fun x hx => priority_of_mem_expiringSoon hx)
  · intro a ha b _
    rcases List.mem_append.mp ha with h1 | h1
    · rcases List.mem_append.mp h1 with h2 | h2
      · exact alertLe_of_high (priority_of_mem_out h2)
      · exact alertLe_of_high (priority_of_mem_criticalLow h2)
    · exact alertLe_of_high (priority_of_mem_expired h1)

def exItem4a : Item :=
  { id := ['1'], name := ['a'], category := ['m'], quantity := 0,
    lowStockThreshold := none, expiryDate := 500, batchNumber := none,
    description := none, dateAdded := 0, lastUpdated := 0 }

def exItem4b : Item :=
  { id := ['2'], name := ['b'], category := ['m'], quantity := 50,
    lowStockThreshold := none, expiryDate := 50, batchNumber := none,
    description := none, dateAdded := 0, lastUpdated := 0 }

def exItem4c : Item :=
  { id := ['3'], name := ['c'], category := ['m'], quantity := 50,
    lowStockThreshold := none, expiryDate := 103, batchNumber := none,
    description := none, dateAdded := 0, lastUpdated := 0 }

def exState4 : InventoryState :=
  { items := [exItem4a, exItem4b, exItem4c], lowStockThreshold := 10,
    expiryWarningDays := 30 }

/-- C4: `getCriticalAlerts` equals the concatenation of the four generation
groups in the fixed order out-of-stock, critical-low, expired, expiring-soon
(the stable sort leaves the already priority-sorted generation order
untouched, so ties are broken exactly by generation order), the result is
sorted by priority descending, and on a store holding one out-of-stock, one
expired and one expiring-in-3-days record the output order is exactly
out-of-stock, expired, expiring-soon. -/
theorem C4_alert_ordering :
    (∀ (s : InventoryState) (now : Int),
        getCriticalAlerts s now
            = alertsOutOfStock s ++ alertsCriticalLow s ++ alertsExpired s now ++
              alertsExpiringSoon s now ∧
          List.Pairwise alertLe (getCriticalAlerts s now)) ∧
      (getCriticalAlerts exState4 (dateMs 100 + 1)).map Alert.type
          = [AlertType.outOfStock, AlertType.expired, AlertType.expiringSoon] := by
  constructor
  · intro s now
    have hs := alerts_generation_sorted s now
    have he : getCriticalAlerts s now
        = alertsOutOfStock s ++ alertsCriticalLow s ++ alertsExpired s now ++
          alertsExpiringSoon s now := by
      unfold getCriticalAlerts
      exact List.Sorted.insertionSort_eq hs
    exact ⟨he, he ▸ hs⟩
  · decide

/-! ## C9 -/

/-- Inserting a record into a list with `orderedInsert` places it in front of
every record sharing its `lastUpdated` key, so a key-equality filter sees it
first and the rest unchanged. -/
theorem filter_date_orderedInsert (v : Int) (x : Item) (l : List Item) :
    (List.orderedInsert recentLe x l).filter (fun it => decide (it.lastUpdated = v))
      = if x.lastUpdated = v
        then x :: l.filter (fun it => decide (it.lastUpdated = v))
        else l.filter (fun it => decide (it.lastUpdated = v)) := by
  induction l with
  | nil =>
    simp only [List.orderedInsert, List.filter_cons, List.filter_nil]
    by_cases hx : x.lastUpdated = v <;> simp [hx]
  | cons b t ih =>
    unfold List.orderedInsert
    by_cases hr : recentLe x b
    · rw [if_pos hr, List.filter_cons]
      by_cases hx : x.lastUpdated = v <;> simp [hx]
    · rw [if_neg hr, List.filter_cons, ih]
      have hxb : x.lastUpdated < b.lastUpdated := by
        unfold recentLe at hr
        omega
      by_cases hx : x.lastUpdated = v
      · have hbv : ¬ b.lastUpdated = v := by omega
        simp [hx, hbv, List.filter_cons]
      · simp [hx, List.filter_cons]

/-- The stable sort keeps records with equal `lastUpdated` in collection
order: filtering the sorted list by one key value gives the same sequence as
filtering the input. -/
theorem filter_date_insertionSort (v : Int) (l : List Item) :
    (List.insertionSort recentLe l).filter (fun it => decide (it.lastUpdated = v))
      = l.filter (fun it => decide (it.lastUpdated = v)) := by
  induction l with
  | nil => rfl
  | cons x t ih =>
    rw [List.insertionSort, filter_date_orderedInsert, ih, List.filter_cons]
    by_cases hx : x.lastUpdated = v <;> simp [hx]

def exItem9 (n : Nat) (d : Int) : Item :=
  { id := [Char.ofNat (48 + n)], name := ['a'], category := ['m'], quantity := 5,
    lowStockThreshold := none, expiryDate := 500, batchNumber := none,
    description := none, dateAdded := 0, lastUpdated := d }

def exState9 : InventoryState :=
  { items := [exItem9 1 30, exItem9 2 10, exItem9 3 50, exItem9 4 20, exItem9 5 40],
    lowStockThreshold := 10, expiryWarningDays := 30 }

/-- C9: `getRecentActivity` is sorted by `lastUpdated` descending, its length
is the collection size truncated to the limit of 10, equal timestamps keep
their collection order through the stable sort, and on five records with
distinct timestamps the output dates are strictly descending. -/
theorem C9_recent_activity :
    (∀ s : InventoryState,
        List.Pairwise (fun a b : ActivityEntry => b.date ≤ a.date)
            (getRecentActivity s) ∧
          (getRecentActivity s).length = min 10 s.items.length ∧
          ∀ v : Int,
            (List.insertionSort recentLe s.items).filter
                (fun it => decide (it.lastUpdated = v))
              = s.items.filter (fun it => decide (it.lastUpdated = v))) ∧
      (getRecentActivity exState9).map ActivityEntry.date = [50, 40, 30, 20, 10] := by
  constructor
  · intro s
    refine ⟨?_, ?_, fun v => filter_date_insertionSort v s.items⟩
    · have hs := List.sorted_insertionSort recentLe s.items
      have ht : List.Pairwise recentLe ((List.insertionSort recentLe s.items).take 10) :=
        List.Pairwise.sublist (List.take_sublist 10 _) hs
      exact List.Pairwise.map _ (fun a b hab => hab) ht
    · simp [getRecentActivity]
  · decide

end ClinicInventory
